import Mathlib

/-!
Verification of the issue-fix-action validation and patch-application core.

Python strings are modelled as `List Char` (`PyStr`).  Each definition below
is a direct transcription of the corresponding Python function in the
repository; the file/line is recorded in its doc comment.  Python's `None`
and `""` are both falsy, and wherever the source tests truthiness of a
possibly-None string both are represented by the empty list (their behaviour
in the transcribed code is identical).
-/

/-- Python strings, modelled as lists of characters. -/
abbrev PyStr := List Char

/-- Literal helper: the character list of a Lean string literal. -/
def pyLit (s : String) : PyStr := s.data

/-- The whitespace characters recognised by Python's `str.strip()` and by the
regex class `\s` on the ASCII range: space, tab, newline, carriage return,
vertical tab, form feed. -/
def pyIsSpace (c : Char) : Bool :=
  c = ' ' || c = '\t' || c = '\n' || c = '\r' || c = Char.ofNat 11 || c = Char.ofNat 12

/-- Python `str.strip()`: drop leading and trailing whitespace. -/
def pyStrip (s : PyStr) : PyStr :=
  ((s.dropWhile pyIsSpace).reverse.dropWhile pyIsSpace).reverse

/-- Python's substring test `pat in s`. -/
def containsSub (s pat : PyStr) : Bool :=
  match s with
  | [] => pat.isEmpty
  | _ :: cs => pat.isPrefixOf s || containsSub cs pat

/-- Python `s.replace(pat, rep, 1)`: replace the first (leftmost) occurrence
of `pat` in `s` by `rep`; `s` unchanged when `pat` does not occur.  For an
empty `pat` Python inserts `rep` in front of `s`, which is the
`pat.isPrefixOf` branch below. -/
def replaceFirst (s pat rep : PyStr) : PyStr :=
  match s with
  | [] => if pat.isPrefixOf ([] : PyStr) then rep else []
  | c :: cs =>
    if pat.isPrefixOf (c :: cs) then rep ++ (c :: cs).drop pat.length
    else c :: replaceFirst cs pat rep

/-- Python `content.split('\n')`: always returns at least one (possibly
empty) line. -/
def splitOnNl : PyStr → List PyStr
  | [] => [[]]
  | c :: cs =>
    let r := splitOnNl cs
    if c = '\n' then [] :: r
    else
      match r with
      | [] => [[c]]
      | l :: ls => (c :: l) :: ls

/-- Python `'\n'.join(lines)` (and `' '.join` via the `sep` argument). -/
def joinWith (sep : Char) (ls : List PyStr) : PyStr := List.intercalate [sep] ls

/-- Python `s.split()` with no separator: split on runs of whitespace,
discarding empty tokens. -/
def pySplitWs (s : PyStr) : List PyStr :=
  let step := fun (acc : List PyStr × PyStr) (c : Char) =>
    if pyIsSpace c then (if acc.2 = [] then acc else (acc.1 ++ [acc.2], [])) else (acc.1, acc.2 ++ [c])
  let r := s.foldl step ([], [])
  if r.2 = [] then r.1 else r.1 ++ [r.2]

/-- Python `s.startswith((p1, p2, ...))`: true when any listed string is a
prefix of `s`. -/
def startsWithAny (s : PyStr) (ps : List PyStr) : Bool := ps.any (·.isPrefixOf s)

section PatchApplicator

/-- One entry of the `changes` list consumed by `PRCreator._apply_changes`
(src/agents/pr_creator.py): the dict keys `old_code` and `new_code`, with
`.get(..., '')` defaults. -/
structure Change where
  old_code : PyStr
  new_code : PyStr
deriving DecidableEq, Repr

/-- The line-start prefixes tested by `_apply_changes` tier 3
(pr_creator.py line 240): `('import ', 'const ', 'require(', 'from ')`. -/
def importLineStarts : List PyStr :=
  [pyLit "import ", pyLit "const ", pyLit "require(", pyLit "from "]

/-- Tier 2 of `_apply_changes` (pr_creator.py lines 215-234): the anchor was
not found verbatim, so collapse the anchor's whitespace, scan the content
line by line for a line whose normalized form contains the first 50
characters of the normalized anchor, and on a hit splice the replacement's
lines over the anchor's line count.  The scan keeps going past a hit whose
block would not fit (the Python `break` sits inside the inner `if`). -/
def tier2Apply (modified old_code new_code : PyStr) : PyStr :=
  let old_normalized := joinWith ' ' (pySplitWs old_code)
  let key := old_normalized.take 50
  let content_lines := splitOnNl modified
  let old_lines := splitOnNl (pyStrip old_code)
  let hit := (List.range content_lines.length).find? fun i =>
    containsSub (joinWith ' ' (pySplitWs ((content_lines.get? i).getD []))) key
      && decide (i + old_lines.length ≤ content_lines.length)
  match hit with
  | some i =>
    joinWith '\n'
      (content_lines.take i ++ splitOnNl (pyStrip new_code)
        ++ content_lines.drop (i + old_lines.length))
  | none => modified

/-- The body of the `for change in changes` loop of `_apply_changes`
(pr_creator.py lines 204-252).  Empty `new_code` is skipped (`continue`);
tier 1 replaces the first occurrence of the stripped anchor by the stripped
replacement; tier 2 is the normalized-whitespace fallback; tier 3 (no
anchor) installs `new_code` wholesale only when its stripped form has a
declaration-like line among its first five lines and more lines than half
the current content (Python compares `len > n * 0.5`, which for these integer
magnitudes is exactly `2 * len > n` — both sides are exact binary floats). -/
def applyOneChange (modified : PyStr) (change : Change) : PyStr :=
  let old_code := change.old_code
  let new_code := change.new_code
  if new_code = [] then modified
  else if old_code ≠ [] ∧ containsSub modified (pyStrip old_code) then
    replaceFirst modified (pyStrip old_code) (pyStrip new_code)
  else if old_code ≠ [] then
    tier2Apply modified old_code new_code
  else
    let new_lines := splitOnNl (pyStrip new_code)
    let has_imports := (new_lines.take 5).any fun l => startsWithAny (pyStrip l) importLineStarts
    let has_structure := 2 * new_lines.length > (splitOnNl modified).length
    if has_imports ∧ has_structure then new_code else modified

/-- `PRCreator._apply_changes` (pr_creator.py lines 181-253).  An empty edit
list returns `''`; a missing/empty current content falls back to the last
edit's raw `new_code`; otherwise the edits are folded over the content in
order. -/
def applyChanges (current_content : PyStr) (changes : List Change) : PyStr :=
  if changes = [] then []
  else if current_content = [] then
    match changes.getLast? with
    | some c => c.new_code
    | none => []
  else changes.foldl applyOneChange current_content

end PatchApplicator

section SubstringLemmas

theorem containsSub_iff (s pat : PyStr) : containsSub s pat = true ↔ pat <:+: s := by
  induction s with
  | nil => simp [containsSub, List.isEmpty_iff, List.infix_nil]
  | cons c cs ih =>
    simp only [containsSub, Bool.or_eq_true, List.isPrefixOf_iff_prefix, ih,
      List.infix_cons_iff]

theorem replaceFirst_spec (s pat rep : PyStr) (h : pat <:+: s) :
    ∃ pre post, s = pre ++ pat ++ post ∧
      replaceFirst s pat rep = pre ++ rep ++ post ∧
      ∀ pre2 post2, s = pre2 ++ pat ++ post2 → pre.length ≤ pre2.length := by
  induction s with
  | nil =>
    have hp : pat = [] := List.infix_nil.mp h
    subst hp
    exact ⟨[], [], rfl, by simp [replaceFirst], fun _ _ _ => Nat.zero_le _⟩
  | cons c cs ih =>
    by_cases hpre : pat.isPrefixOf (c :: cs)
    · have hp : pat <+: c :: cs := List.isPrefixOf_iff_prefix.mp hpre
      obtain ⟨t, ht⟩ := hp
      refine ⟨[], (c :: cs).drop pat.length, ?_, ?_, fun _ _ _ => Nat.zero_le _⟩
      · rw [← ht, List.nil_append, List.drop_left]
      · simp [replaceFirst, hpre]
    · have hcs : pat <:+: cs := by
        rcases List.infix_cons_iff.mp h with hp | hcs
        · exact absurd (List.isPrefixOf_iff_prefix.mpr hp) hpre
        · exact hcs
      obtain ⟨pre, post, h1, h2, h3⟩ := ih hcs
      refine ⟨c :: pre, post, by simp [h1], ?_, ?_⟩
      · simp [replaceFirst, hpre, h2]
      · rintro pre2 post2 heq
        cases pre2 with
        | nil =>
          exfalso
          apply hpre
          apply List.isPrefixOf_iff_prefix.mpr
          exact ⟨post2, by simpa using heq.symm⟩
        | cons d pre2' =>
          simp only [List.cons_append, List.cons.injEq] at heq
          simpa using h3 pre2' post2 heq.2

end SubstringLemmas

/-- Claim C1, counterexample to the claim as stated: the edit
`{old_code := "a", new_code := ""}` has a trimmed anchor that occurs
verbatim in the content `"ab"`, yet `_apply_changes` skips the edit
(`if not new_code: continue`, pr_creator.py line 208) and returns the
content unchanged, instead of the claimed `"b"` in which the first
occurrence of the anchor is replaced by the (empty) trimmed replacement. -/
theorem C1_counterexample :
    applyChanges (pyLit "ab") [⟨pyLit "a", pyLit ""⟩] = pyLit "ab" ∧
      pyLit "ab" ≠ pyLit "b" := by decide

/-- Claim C1 (amended): for every non-empty content `C` and every edit with
non-empty `anchor_text` and non-empty `replacement_text` whose
whitespace-trimmed anchor occurs verbatim in `C`, `apply` replaces exactly
the first (leftmost) occurrence of the trimmed anchor with the trimmed
replacement, leaving everything before and after that occurrence — in
particular every other occurrence of equal text — unchanged. -/
theorem C1_theorem (C : PyStr) (e : Change) (hC : C ≠ []) (hold : e.old_code ≠ [])
    (hnew : e.new_code ≠ []) (hin : containsSub C (pyStrip e.old_code) = true) :
    ∃ pre post, C = pre ++ pyStrip e.old_code ++ post ∧
      applyChanges C [e] = pre ++ pyStrip e.new_code ++ post ∧
      ∀ pre2 post2, C = pre2 ++ pyStrip e.old_code ++ post2 → pre.length ≤ pre2.length := by
  have h1 : applyChanges C [e] = applyOneChange C e := by
    simp [applyChanges, hC]
  have h2 : applyOneChange C e = replaceFirst C (pyStrip e.old_code) (pyStrip e.new_code) := by
    simp [applyOneChange, hnew, hold, hin]
  obtain ⟨pre, post, hs, hr, hmin⟩ :=
    replaceFirst_spec C (pyStrip e.old_code) (pyStrip e.new_code) ((containsSub_iff _ _).mp hin)
  exact ⟨pre, post, hs, by rw [h1, h2]; exact hr, hmin⟩

/-- Witness for C1_theorem at content `"one two one"` with anchor `" two "`
and replacement `" TWO "`. -/
theorem C1_witness :
    ∃ pre post, pyLit "one two one" = pre ++ pyStrip (pyLit " two ") ++ post ∧
      applyChanges (pyLit "one two one") [⟨pyLit " two ", pyLit " TWO "⟩]
        = pre ++ pyStrip (pyLit " TWO ") ++ post ∧
      ∀ pre2 post2, pyLit "one two one" = pre2 ++ pyStrip (pyLit " two ") ++ post2 →
        pre.length ≤ pre2.length :=
  C1_theorem (pyLit "one two one") ⟨pyLit " two ", pyLit " TWO "⟩
    (by decide) (by decide) (by decide) (by decide)

/-- Claim C4, counterexample to the claim as stated: a replacement made of
six newlines followed by two lines that start with the word import has five
blank first lines, none of them declaration-like, and the edit has an empty
anchor, yet `_apply_changes` replaces the whole content: tier 3 inspects
the first five lines of the *stripped* replacement (pr_creator.py line
238), where the declaration-like lines have moved to the top. -/
theorem C4_counterexample :
    applyChanges (pyLit "x") [⟨pyLit "", pyLit "\n\n\n\n\n\nimport a\nimport b"⟩]
        = pyLit "\n\n\n\n\n\nimport a\nimport b" ∧
      ((splitOnNl (pyLit "\n\n\n\n\n\nimport a\nimport b")).take 5).any
        (fun l => startsWithAny (pyStrip l) importLineStarts) = false ∧
      pyLit "\n\n\n\n\n\nimport a\nimport b" ≠ pyLit "x" := by decide

/-- Claim C4 (amended): for every non-empty content string and every edit
with an empty `anchor_text` whose *whitespace-trimmed* `replacement_text`
has no import/declaration-like line among its first five lines, `apply`
leaves the content unchanged (the edit is discarded rather than applied). -/
theorem C4_theorem (C : PyStr) (e : Change) (hC : C ≠ []) (hold : e.old_code = [])
    (hno : ((splitOnNl (pyStrip e.new_code)).take 5).any
        (fun l => startsWithAny (pyStrip l) importLineStarts) = false) :
    applyChanges C [e] = C := by
  have h1 : applyChanges C [e] = applyOneChange C e := by
    simp [applyChanges, hC]
  rw [h1]
  by_cases hnew : e.new_code = []
  · simp [applyOneChange, hnew]
  · simp [applyOneChange, hnew, hold, hno]

/-- Witness for C4_theorem: an anchorless edit whose replacement `"y = 1"`
has no import-like line is discarded. -/
theorem C4_witness :
    applyChanges (pyLit "x") [⟨pyLit "", pyLit "y = 1"⟩] = pyLit "x" :=
  C4_theorem (pyLit "x") ⟨pyLit "", pyLit "y = 1"⟩ (by decide) (by decide) (by decide)

/-- Claim C9 (confirmed): applying an empty list of edits returns the empty
string for every current content, including non-empty content —
`_apply_changes` is not the identity on content when no edits are given
(`if not changes: return ''`, pr_creator.py line 193). -/
theorem C9_theorem (C : PyStr) : applyChanges C [] = [] := by
  simp [applyChanges]

/-- Claim C10 (confirmed): an edit whose `replacement_text` is empty is
skipped before any of the three matching tiers (`if not new_code: continue`,
pr_creator.py line 208), so the content is returned unchanged even when the
anchor occurs verbatim — `_apply_changes` never performs a pure deletion. -/
theorem C10_theorem (C : PyStr) (e : Change) (h : e.new_code = []) :
    applyChanges C [e] = C := by
  by_cases hC : C = []
  · subst hC
    simp [applyChanges, h]
  · have h1 : applyChanges C [e] = applyOneChange C e := by
      simp [applyChanges, hC]
    rw [h1]
    simp [applyOneChange, h]

/-- Witness for C10_theorem: the anchor `"x"` occurs in `"xy"` but the
empty-replacement edit leaves the content unchanged. -/
theorem C10_witness :
    applyChanges (pyLit "xy") [⟨pyLit "x", pyLit ""⟩] = pyLit "xy" :=
  C10_theorem (pyLit "xy") ⟨pyLit "x", pyLit ""⟩ rfl

section DependencyChecker

/-- The character class `[a-zA-Z0-9_\.]` of the Python import regexes
(dependency_checker.py lines 72-73); ASCII, as in the source patterns. -/
def isIdentChar (c : Char) : Bool := c.isAlpha || c.isDigit || c = '_' || c = '.'

/-- Attempt the pattern `^\s*import\s+([a-zA-Z0-9_\.]+)` at one position
(the position itself must be a line start, which the caller checks).
Greedy/backtracking subtleties vanish because `\s`, the literal `import`
and the identifier class touch at disjoint characters, so maximal munch is
the only possible match.  Returns the captured group and the remainder of
the string after the match. -/
def matchImport (s : PyStr) : Option (PyStr × PyStr) :=
  let s1 := s.dropWhile pyIsSpace
  if (pyLit "import").isPrefixOf s1 then
    match s1.drop 6 with
    | [] => none
    | c :: rest =>
      if pyIsSpace c then
        let s3 := rest.dropWhile pyIsSpace
        let name := s3.takeWhile isIdentChar
        if name = [] then none else some (name, s3.drop name.length)
      else none
  else none

/-- Attempt the pattern `^\s*from\s+([a-zA-Z0-9_\.]+)\s+import` at one
position; same disjointness argument as for `matchImport` (the greedy
group cannot donate characters to `\s+`, so no backtracking arises). -/
def matchFrom (s : PyStr) : Option (PyStr × PyStr) :=
  let s1 := s.dropWhile pyIsSpace
  if (pyLit "from").isPrefixOf s1 then
    match s1.drop 4 with
    | [] => none
    | c :: rest =>
      if pyIsSpace c then
        let s3 := rest.dropWhile pyIsSpace
        let name := s3.takeWhile isIdentChar
        if name = [] then none
        else
          match s3.drop name.length with
          | [] => none
          | c2 :: rest2 =>
            if pyIsSpace c2 then
              let s5 := rest2.dropWhile pyIsSpace
              if (pyLit "import").isPrefixOf s5 then some (name, s5.drop 6) else none
            else none
      else none
  else none

/-- `re.findall(pattern, content, re.MULTILINE)` for the two patterns
above: scan positions left to right, attempting the pattern only where `^`
matches (offset 0 or just after a newline), and resume after the end of
each non-overlapping match.  Both patterns end in a non-newline character
(an identifier character, or the literal `import`), so scanning resumes
with the line-start flag off.  `fuel` bounds the recursion; each step
consumes at least one character, so `fuel = s.length` never runs out. -/
def findallAux (t : PyStr → Option (PyStr × PyStr)) : Nat → PyStr → Bool → List PyStr
  | _, [], _ => []
  | 0, _ :: _, _ => []
  | fuel + 1, c :: cs, bol =>
    match (if bol then t (c :: cs) else none) with
    | some (name, rest) => name :: findallAux t fuel rest false
    | none => findallAux t fuel cs (c == '\n')

/-- All matches of an anchored multiline pattern in `content`. -/
def reFindallMultiline (t : PyStr → Option (PyStr × PyStr)) (content : PyStr) : List PyStr :=
  findallAux t content.length content true

/-- `match.split('.')[0]` (dependency_checker.py line 79). -/
def rootModule (m : PyStr) : PyStr := m.takeWhile (fun c => c != '.')

/-- Insertion into a Python `set`, modelled as a duplicate-free list kept in
insertion order.  Every claim proved here involves sets of at most one
element, where this order agrees with any iteration order of the real
`set`. -/
def setInsert (acc : List PyStr) (m : PyStr) : List PyStr :=
  if m ∈ acc then acc else acc ++ [m]

/-- Collect a list into a Python-set model. -/
def pySetOfList (l : List PyStr) : List PyStr := l.foldl setInsert []

/-- `DependencyChecker._extract_imports` for `language == 'python'`
(dependency_checker.py lines 69-80): run both patterns over the content and
collect the root module of every match into a set. -/
def extract_imports_python (content : PyStr) : List PyStr :=
  pySetOfList
    ((reFindallMultiline matchImport content ++ reFindallMultiline matchFrom content).map
      rootModule)

/-- `DependencyChecker.PYTHON_BUILTINS` (dependency_checker.py lines 18-25). -/
def PYTHON_BUILTINS : List PyStr :=
  [pyLit "os", pyLit "sys", pyLit "re", pyLit "json", pyLit "time", pyLit "datetime",
   pyLit "collections", pyLit "itertools", pyLit "functools", pyLit "math", pyLit "random",
   pyLit "string", pyLit "io", pyLit "logging", pyLit "unittest", pyLit "argparse",
   pyLit "subprocess", pyLit "pathlib", pyLit "typing", pyLit "enum", pyLit "dataclasses",
   pyLit "abc", pyLit "asyncio", pyLit "threading", pyLit "multiprocessing", pyLit "socket",
   pyLit "http", pyLit "urllib", pyLit "email", pyLit "base64", pyLit "hashlib", pyLit "hmac",
   pyLit "csv", pyLit "tempfile", pyLit "shutil", pyLit "glob", pyLit "fnmatch"]

/-- `DependencyChecker._parse_package_file` for `language == 'python'`
(dependency_checker.py lines 109-117): per line, strip, skip blanks and
`#` comments, cut at the first of `=<>!` (the `re.split(r'[=<>!]', line)[0]`),
strip again and add to the set of declared modules. -/
def parse_package_file_python (content : PyStr) : List PyStr :=
  (splitOnNl content).foldl
    (fun available rawLine =>
      let line := pyStrip rawLine
      if line = [] then available
      else if (pyLit "#").isPrefixOf line then available
      else
        setInsert available
          (pyStrip (line.takeWhile fun c => !(c = '=' || c = '<' || c = '>' || c = '!'))))
    []

/-- `DependencyChecker._is_available` for `language == 'python'`
(dependency_checker.py lines 134-143): builtin allowlist first, then the
parsed manifest. -/
def is_available_python (module : PyStr) (available : List PyStr) : Bool :=
  PYTHON_BUILTINS.contains module || available.contains module

/-- `DependencyChecker.check_dependencies` for `language == 'python'`
(dependency_checker.py lines 51-60, the non-exception path): collect every
extracted import that `_is_available` rejects. -/
def check_dependencies_python (file_content package_file_content : PyStr) : List PyStr :=
  let imports := extract_imports_python file_content
  let available := parse_package_file_python package_file_content
  imports.foldl (fun missing m => if is_available_python m available then missing else missing ++ [m]) []

/-- Python truthiness of an optional string: `None` and `''` are falsy. -/
def pyFalsyStrOpt : Option PyStr → Bool
  | none => true
  | some s => s.isEmpty

/-- The dict returned by the `check_dependencies` branch of
`FixGenerator._execute_tool` (fix_generator.py lines 393-416). -/
structure DepToolResult where
  all_available : Bool
  missing_dependencies : List PyStr
  message : Option PyStr
deriving DecidableEq, Repr

/-- The `check_dependencies` branch of `FixGenerator._execute_tool`
(fix_generator.py lines 393-416): look the language up in the per-request
manifest cache (`dict.get`, so a missing key gives `None`); when the result
is falsy, return the skip dict with an empty missing list; otherwise run
the checker (injected here as `checkDeps`, so the guard is proved for every
language) and report `len(missing) == 0`. -/
def execute_check_dependencies (checkDeps : PyStr → PyStr → PyStr → List PyStr)
    (package_manifest_cache : PyStr → Option PyStr) (code language : PyStr) : DepToolResult :=
  let package_content := package_manifest_cache language
  if pyFalsyStrOpt package_content then
    { all_available := true, missing_dependencies := [],
      message := some (pyLit "No package manifest found, skipping dependency check") }
  else
    let missing := checkDeps code (package_content.getD []) language
    { all_available := missing.isEmpty, missing_dependencies := missing, message := none }

end DependencyChecker

section DependencyCheckerLemmas

theorem space_not_ident {c : Char} (h : pyIsSpace c = true) : isIdentChar c = false := by
  simp only [pyIsSpace, Bool.or_eq_true, decide_eq_true_eq] at h
  rcases h with ((((h | h) | h) | h) | h) | h <;> subst h <;> decide

theorem ident_not_space {c : Char} (h : isIdentChar c = true) : pyIsSpace c = false := by
  cases hps : pyIsSpace c
  · rfl
  · rw [space_not_ident hps] at h; cases h

theorem ident_not_newline {c : Char} (h : isIdentChar c = true) : (c == '\n') = false := by
  have := ident_not_space h
  simp only [pyIsSpace, Bool.or_eq_false_iff, decide_eq_false_iff_not] at this
  simpa using this.1.1.1.2

theorem dropWhile_ident (M : PyStr) (h : ∀ c ∈ M, isIdentChar c = true) :
    M.dropWhile pyIsSpace = M := by
  cases M with
  | nil => rfl
  | cons c cs =>
    rw [List.dropWhile_cons, ident_not_space (h c (List.mem_cons_self c cs))]
    simp

theorem takeWhile_all (p : Char → Bool) (M : PyStr) (h : ∀ c ∈ M, p c = true) :
    M.takeWhile p = M := by
  induction M with
  | nil => rfl
  | cons c cs ih =>
    rw [List.takeWhile_cons, h c (List.mem_cons_self c cs)]
    simp [ih fun c hc => h c (List.mem_cons_of_mem _ hc)]

theorem matchImport_eval (M : PyStr) (hM : M ≠ []) (h : ∀ c ∈ M, isIdentChar c = true) :
    matchImport (pyLit "import " ++ M) = some (M, []) := by
  have hc : pyLit "import " ++ M = 'i' :: 'm' :: 'p' :: 'o' :: 'r' :: 't' :: ' ' :: M := rfl
  rw [hc]
  unfold matchImport
  rw [List.dropWhile_cons]
  simp only [(by decide : pyIsSpace 'i' = false), if_false, Bool.false_eq_true]
  rw [if_pos (by simp [pyLit, List.isPrefixOf])]
  simp only [List.drop_succ_cons, List.drop_zero]
  rw [if_pos (by decide)]
  rw [dropWhile_ident M h, takeWhile_all isIdentChar M h]
  rw [if_neg hM, List.drop_length]

theorem matchFrom_fails (T : PyStr) : matchFrom ('i' :: T) = none := by
  unfold matchFrom
  rw [List.dropWhile_cons]
  simp only [(by decide : pyIsSpace 'i' = false), if_false, Bool.false_eq_true]
  rw [if_neg (by simp [pyLit, List.isPrefixOf])]

theorem findallAux_no_bol (t : PyStr → Option (PyStr × PyStr)) (s : PyStr)
    (h : ∀ c ∈ s, (c == '\n') = false) : ∀ fuel, findallAux t fuel s false = [] := by
  induction s with
  | nil => intro fuel; cases fuel <;> rfl
  | cons c cs ih =>
    intro fuel
    cases fuel with
    | zero => rfl
    | succ n =>
      show findallAux t (n + 1) (c :: cs) false = []
      rw [findallAux]
      rw [if_neg Bool.false_ne_true]
      rw [h c (List.mem_cons_self c cs)]
      exact ih (fun d hd => h d (List.mem_cons_of_mem _ hd)) n

theorem findallAux_single (t : PyStr → Option (PyStr × PyStr)) (fuel : Nat) (c : Char)
    (cs M : PyStr) (h : t (c :: cs) = some (M, [])) :
    findallAux t (fuel + 1) (c :: cs) true = [M] := by
  rw [findallAux]
  simp only [if_true, h]
  cases fuel <;> rfl

theorem extract_imports_single (M : PyStr) (hM : M ≠ [])
    (hid : ∀ c ∈ M, isIdentChar c = true ∧ (c != '.') = true) :
    extract_imports_python (pyLit "import " ++ M) = [M] := by
  have hident : ∀ c ∈ M, isIdentChar c = true := fun c hc => (hid c hc).1
  have hc : pyLit "import " ++ M = 'i' :: (pyLit "mport " ++ M) := rfl
  have hnn : ∀ c ∈ (pyLit "mport " ++ M), (c == '\n') = false := by
    intro c hcmem
    rcases List.mem_append.mp hcmem with hl | hr
    · have : c ∈ ['m', 'p', 'o', 'r', 't', ' '] := hl
      fin_cases this <;> decide
    · exact ident_not_newline (hident c hr)
  have h1 : reFindallMultiline matchImport (pyLit "import " ++ M) = [M] := by
    unfold reFindallMultiline
    rw [hc, List.length_cons]
    exact findallAux_single _ _ _ _ _ (by rw [← hc]; exact matchImport_eval M hM hident)
  have h2 : reFindallMultiline matchFrom (pyLit "import " ++ M) = [] := by
    unfold reFindallMultiline
    rw [hc, List.length_cons, findallAux]
    rw [if_pos rfl, matchFrom_fails]
    rw [(by decide : ('i' == '\n') = false)]
    exact findallAux_no_bol _ _ hnn _
  unfold extract_imports_python
  rw [h1, h2]
  have hroot : rootModule M = M :=
    takeWhile_all _ M fun c hcm => (hid c hcm).2
  simp [pySetOfList, setInsert, hroot]

theorem contains_iff_mem (l : List PyStr) (m : PyStr) : l.contains m = true ↔ m ∈ l := by
  simp [List.contains]

end DependencyCheckerLemmas

/-- Claim C2 (confirmed): the dependency-check tool branch of
`_execute_tool` returns the skip dict — empty missing list, all_available
true — whenever the manifest cache has no (or an empty) entry for the
requested language, for every code content, every language, and every
underlying checker; code imports are never consulted. -/
theorem C2_theorem (checkDeps : PyStr → PyStr → PyStr → List PyStr)
    (cache : PyStr → Option PyStr) (code language : PyStr)
    (h : pyFalsyStrOpt (cache language) = true) :
    (execute_check_dependencies checkDeps cache code language).missing_dependencies = [] ∧
      (execute_check_dependencies checkDeps cache code language).all_available = true := by
  simp [execute_check_dependencies, h]

/-- Witness for C2_theorem: python code importing pandas, an empty manifest
cache, and the real python checker. -/
theorem C2_witness :
    (execute_check_dependencies (fun code pc _ => check_dependencies_python code pc)
        (fun _ => none) (pyLit "import pandas") (pyLit "python")).missing_dependencies = [] ∧
      (execute_check_dependencies (fun code pc _ => check_dependencies_python code pc)
        (fun _ => none) (pyLit "import pandas") (pyLit "python")).all_available = true :=
  C2_theorem _ _ _ _ rfl

/-- Claim C5 (confirmed): for a module name `M` (non-empty, made of
identifier characters, no dot), code `import M` checked against a python
manifest returns no missing dependencies when the manifest declares `M`,
and returns exactly `[M]` when the manifest does not declare `M` and `M` is
not in the built-in allowlist. -/
theorem C5_theorem (M manifest : PyStr) (hM : M ≠ [])
    (hid : ∀ c ∈ M, isIdentChar c = true ∧ (c != '.') = true) :
    (M ∈ parse_package_file_python manifest →
      check_dependencies_python (pyLit "import " ++ M) manifest = []) ∧
    (M ∉ parse_package_file_python manifest → M ∉ PYTHON_BUILTINS →
      check_dependencies_python (pyLit "import " ++ M) manifest = [M]) := by
  have hext := extract_imports_single M hM hid
  unfold check_dependencies_python
  rw [hext]
  constructor
  · intro hmem
    have : is_available_python M (parse_package_file_python manifest) = true := by
      simp only [is_available_python, Bool.or_eq_true, contains_iff_mem]
      exact Or.inr hmem
    simp [this]
  · intro hnmem hnb
    have havail : is_available_python M (parse_package_file_python manifest) = false := by
      simp only [is_available_python, Bool.or_eq_false_iff]
      constructor
      · cases hb : PYTHON_BUILTINS.contains M
        · rfl
        · exact absurd ((contains_iff_mem _ _).mp hb) hnb
      · cases hb : (parse_package_file_python manifest).contains M
        · rfl
        · exact absurd ((contains_iff_mem _ _).mp hb) hnmem
    simp [havail]

/-- Witness for C5_theorem at the spec scenario: `"import pandas"` against
the manifest `"requests>=2.0\nboto3>=1.0"` yields the missing list
`["pandas"]`. -/
theorem C5_witness :
    check_dependencies_python (pyLit "import " ++ pyLit "pandas")
      (pyLit "requests>=2.0\nboto3>=1.0") = [pyLit "pandas"] :=
  (C5_theorem (pyLit "pandas") (pyLit "requests>=2.0\nboto3>=1.0")
      (by decide) (by decide)).2 (by decide) (by decide)

section Orchestrator

/-- One block of a Bedrock response `content` array; only its `type` field
drives the tool-use loop (bedrock.py line 162). -/
structure ContentBlock where
  type : PyStr
deriving DecidableEq, Repr

/-- A parsed Bedrock response: `result.get('stop_reason')` and
`result['content']` (bedrock.py lines 154-162). -/
structure BedrockResult where
  stop_reason : Option PyStr
  content : List ContentBlock
deriving DecidableEq, Repr

/-- The `max_tool_iterations` default in the signature of
`BedrockClient.invoke_model_with_tools` (bedrock.py line 116). -/
def bedrock_default_max_tool_iterations : Nat := 10

/-- A turn on which the loop keeps going: stop reason `'tool_use'` AND at
least one `tool_use` content block (bedrock.py lines 160-166; a
`'tool_use'` stop reason with no tool_use block returns immediately). -/
def isToolUseTurn (r : BedrockResult) : Prop :=
  r.stop_reason = some (pyLit "tool_use") ∧
    (r.content.filter fun b => b.type == pyLit "tool_use") ≠ []

instance (r : BedrockResult) : Decidable (isToolUseTurn r) := by
  unfold isToolUseTurn
  infer_instance

/-- The `for iteration in range(max_tool_iterations)` loop of
`invoke_model_with_tools` (bedrock.py lines 136-216).  The model is
abstracted as the oracle `respond`, indexed by the iteration number (in the
source the response is a function of the accumulated `messages`, which are
themselves a function of the previous responses, so iteration-indexing is a
sound abstraction; tool execution cannot alter control flow, since executor
exceptions are caught and turned into error tool_results, lines 188-198).
`last` carries the Python local `result`; when the loop runs zero times the
final `return result` would raise `UnboundLocalError`, modelled by `none`. -/
def invokeLoopGo (respond : Nat → BedrockResult) :
    Nat → Nat → Option BedrockResult → Option BedrockResult
  | 0, _, last => last
  | fuel + 1, i, _ =>
    let result := respond i
    if result.stop_reason = some (pyLit "tool_use") then
      let tool_uses := result.content.filter fun b => b.type == pyLit "tool_use"
      if tool_uses.isEmpty then some result
      else invokeLoopGo respond fuel (i + 1) (some result)
    else some result

/-- `BedrockClient.invoke_model_with_tools` (bedrock.py lines 108-216),
loop-control projection. -/
def invoke_model_with_tools (respond : Nat → BedrockResult)
    (max_tool_iterations : Nat := bedrock_default_max_tool_iterations) :
    Option BedrockResult :=
  invokeLoopGo respond max_tool_iterations 0 none

/-- The `validated_with_tools` flag of the fix result produced by
`FixGenerator.generate_fix` (fix_generator.py lines 254-272): the Bedrock
tool loop is invoked with `max_tool_iterations=15`, and afterwards
`fix_result['validated_with_tools'] = True` is set unconditionally — also
when the loop exhausted its iteration budget. -/
def generate_fix_validated_with_tools (respond : Nat → BedrockResult) : Bool :=
  let _response := invoke_model_with_tools respond 15
  true

theorem invokeLoopGo_stops_at_final (respond : Nat → BedrockResult) :
    ∀ (k fuel i : Nat) (last : Option BedrockResult), k < fuel →
      (∀ j, j < k → isToolUseTurn (respond (i + j))) → ¬ isToolUseTurn (respond (i + k)) →
      invokeLoopGo respond fuel i last = some (respond (i + k)) := by
  intro k
  induction k with
  | zero =>
    intro fuel i last hk hbefore hfinal
    cases fuel with
    | zero => omega
    | succ f =>
      rw [invokeLoopGo]
      simp only [Nat.add_zero] at hfinal
      by_cases hs : (respond i).stop_reason = some (pyLit "tool_use")
      · rw [if_pos hs]
        have hempty : ((respond i).content.filter fun b => b.type == pyLit "tool_use") = [] := by
          by_contra hne
          exact hfinal ⟨hs, hne⟩
        rw [if_pos (by simp [hempty])]
        simp
      · rw [if_neg hs]
        simp
  | succ k ih =>
    intro fuel i last hk hbefore hfinal
    cases fuel with
    | zero => omega
    | succ f =>
      rw [invokeLoopGo]
      have h0 : isToolUseTurn (respond i) := by
        have := hbefore 0 (Nat.succ_pos k)
        simpa using this
      rw [if_pos h0.1, if_neg (by simp [List.isEmpty_iff, h0.2])]
      have := ih f (i + 1) (some (respond i)) (by omega)
        (fun j hj => by
          have := hbefore (j + 1) (by omega)
          simpa [Nat.add_assoc, Nat.add_comm 1 j] using this)
        (by
          have h := hfinal
          simpa [Nat.add_assoc, Nat.add_comm 1 k] using h)
      simpa [Nat.add_assoc, Nat.add_comm 1 k] using this

theorem invokeLoopGo_exhausts (respond : Nat → BedrockResult) :
    ∀ (fuel i : Nat) (last : Option BedrockResult), 0 < fuel →
      (∀ j, j < fuel → isToolUseTurn (respond (i + j))) →
      invokeLoopGo respond fuel i last = some (respond (i + fuel - 1)) := by
  intro fuel
  induction fuel with
  | zero => omega
  | succ f ih =>
    intro i last _ hall
    rw [invokeLoopGo]
    have h0 : isToolUseTurn (respond i) := by
      have := hall 0 (Nat.succ_pos f)
      simpa using this
    rw [if_pos h0.1, if_neg (by simp [List.isEmpty_iff, h0.2])]
    cases f with
    | zero => rw [invokeLoopGo]; simp
    | succ g =>
      have hrec := ih (i + 1) (some (respond i)) (Nat.succ_pos g)
        (fun j hj => by
          have := hall (j + 1) (by omega)
          simpa [Nat.add_assoc, Nat.add_comm 1 j] using this)
      rw [hrec]
      have harith : i + 1 + (g + 1) - 1 = i + (g + 1 + 1) - 1 := by omega
      rw [harith]

end Orchestrator

/-- Claim C3, counterexample to the claim as stated: with a model that
requests tool use on every turn the 15-iteration budget of the fix
generator is exhausted, yet `generate_fix` still marks the result
`validated_with_tools = True` (fix_generator.py line 272) instead of
treating it as unvalidated; moreover the iteration-ceiling default in the
loop's own signature is 10, not 15 (15 is what `generate_fix` passes). -/
theorem C3_counterexample :
    (∀ j, j < 15 →
        isToolUseTurn ((fun _ => ⟨some (pyLit "tool_use"), [⟨pyLit "tool_use"⟩]⟩ :
          Nat → BedrockResult) j)) ∧
      generate_fix_validated_with_tools
        (fun _ => ⟨some (pyLit "tool_use"), [⟨pyLit "tool_use"⟩]⟩) = true ∧
      bedrock_default_max_tool_iterations ≠ 15 := by
  refine ⟨by decide, rfl, by decide⟩

/-- Claim C3 (amended): the tool-use loop terminates on the first turn
whose agent output is a final answer rather than tool calls, returning that
output; when every turn up to the iteration ceiling requests tools, the
ceiling is reached and the last raw agent output is returned as-is.  The
ceiling is 15 as passed by the fix generator, while the loop function's own
default is 10; on budget exhaustion `generate_fix` nevertheless marks the
result `validated_with_tools = True` (the spec's "treat as unvalidated" is
not realised in code). -/
theorem C3_theorem (respond : Nat → BedrockResult) (n : Nat) :
    (∀ k, k < n → (∀ j, j < k → isToolUseTurn (respond j)) → ¬ isToolUseTurn (respond k) →
        invoke_model_with_tools respond n = some (respond k)) ∧
      (0 < n → (∀ j, j < n → isToolUseTurn (respond j)) →
        invoke_model_with_tools respond n = some (respond (n - 1))) ∧
      generate_fix_validated_with_tools respond = true ∧
      bedrock_default_max_tool_iterations = 10 := by
  refine ⟨?_, ?_, rfl, rfl⟩
  · intro k hk hbefore hfinal
    have := invokeLoopGo_stops_at_final respond k n 0 none hk
      (fun j hj => by simpa using hbefore j hj) (by simpa using hfinal)
    simpa [invoke_model_with_tools] using this
  · intro hn hall
    have := invokeLoopGo_exhausts respond n 0 none hn
      (fun j hj => by simpa using hall j hj)
    simpa [invoke_model_with_tools] using this

/-- Witness for C3_theorem: a run whose first turn requests tools and whose
second turn is a final answer returns the second turn's output. -/
theorem C3_witness :
    invoke_model_with_tools
        (fun j => if j = 0 then ⟨some (pyLit "tool_use"), [⟨pyLit "tool_use"⟩]⟩
          else ⟨some (pyLit "end_turn"), []⟩) 15
      = some ⟨some (pyLit "end_turn"), []⟩ := by
  have h := (C3_theorem
      (fun j => if j = 0 then ⟨some (pyLit "tool_use"), [⟨pyLit "tool_use"⟩]⟩
        else ⟨some (pyLit "end_turn"), []⟩) 15).1 1 (by omega) (by decide) (by decide)
  simpa using h

section TestSummary

/-- Match a literal, returning the remainder. -/
def expectLit (lit s : PyStr) : Option PyStr :=
  if lit.isPrefixOf s then some (s.drop lit.length) else none

/-- Match `\s+` (greedy).  In every pattern below `\s+` is followed by a
digit or a letter, so maximal munch is the only possible match and no
backtracking arises. -/
def ws1 : PyStr → Option PyStr
  | [] => none
  | c :: cs => if pyIsSpace c then some (cs.dropWhile pyIsSpace) else none

/-- Match `(\d+)` (greedy; always followed by `\s+` here, so again maximal
munch is exact).  ASCII digits, as produced by the test runners. -/
def digits1 (s : PyStr) : Option (PyStr × PyStr) :=
  let d := s.takeWhile Char.isDigit
  if d = [] then none else some (d, s.drop d.length)

/-- The jest pattern `Tests:\s+(\d+)\s+passed,\s+(\d+)\s+total`
(test_runner.py line 206) at one position. -/
def tryJestPass (s : PyStr) : Option (PyStr × PyStr) := do
  let r0 ← expectLit (pyLit "Tests:") s
  let r1 ← ws1 r0
  let (d1, r2) ← digits1 r1
  let r3 ← ws1 r2
  let r4 ← expectLit (pyLit "passed,") r3
  let r5 ← ws1 r4
  let (d2, r6) ← digits1 r5
  let r7 ← ws1 r6
  let _ ← expectLit (pyLit "total") r7
  pure (d1, d2)

/-- The jest failure pattern
`Tests:\s+(\d+)\s+failed,\s+(\d+)\s+passed,\s+(\d+)\s+total`
(test_runner.py line 212) at one position. -/
def tryJestFail (s : PyStr) : Option (PyStr × PyStr × PyStr) := do
  let r0 ← expectLit (pyLit "Tests:") s
  let r1 ← ws1 r0
  let (d1, r2) ← digits1 r1
  let r3 ← ws1 r2
  let r4 ← expectLit (pyLit "failed,") r3
  let r5 ← ws1 r4
  let (d2, r6) ← digits1 r5
  let r7 ← ws1 r6
  let r8 ← expectLit (pyLit "passed,") r7
  let r9 ← ws1 r8
  let (d3, r10) ← digits1 r9
  let r11 ← ws1 r10
  let _ ← expectLit (pyLit "total") r11
  pure (d1, d2, d3)

/-- The pytest pattern `(\d+)\s+passed` (test_runner.py line 218) at one
position. -/
def tryPytestPass (s : PyStr) : Option PyStr := do
  let (d, r1) ← digits1 s
  let r2 ← ws1 r1
  let _ ← expectLit (pyLit "passed") r2
  pure d

/-- The pytest failure pattern `(\d+)\s+failed,\s+(\d+)\s+passed`
(test_runner.py line 224) at one position. -/
def tryPytestFail (s : PyStr) : Option (PyStr × PyStr) := do
  let (d1, r1) ← digits1 s
  let r2 ← ws1 r1
  let r3 ← expectLit (pyLit "failed,") r2
  let r4 ← ws1 r3
  let (d2, r5) ← digits1 r4
  let r6 ← ws1 r5
  let _ ← expectLit (pyLit "passed") r6
  pure (d1, d2)

/-- The mocha pattern `(\d+)\s+passing` (test_runner.py line 230) at one
position. -/
def tryMocha (s : PyStr) : Option PyStr := do
  let (d, r1) ← digits1 s
  let r2 ← ws1 r1
  let _ ← expectLit (pyLit "passing") r2
  pure d

/-- `re.search`: try the pattern at every position, left to right, and
return the leftmost match. -/
def reSearch {α : Type} (t : PyStr → Option α) : PyStr → Option α
  | [] => t []
  | s@(_ :: cs) =>
    match t s with
    | some r => some r
    | none => reSearch t cs

/-- `TestRunner._parse_test_summary` (test_runner.py lines 203-241): try the
five patterns in source order, falling back to the `PASS`/`FAIL` substring
checks, and format the summary with an f-string per branch. -/
def parse_test_summary (output : PyStr) : PyStr :=
  match reSearch tryJestPass output with
  | some (d1, d2) => d1 ++ pyLit " passed, " ++ d2 ++ pyLit " total"
  | none =>
    match reSearch tryJestFail output with
    | some (d1, d2, d3) =>
      d2 ++ pyLit " passed, " ++ d1 ++ pyLit " failed, " ++ d3 ++ pyLit " total"
    | none =>
      match reSearch tryPytestPass output with
      | some d => d ++ pyLit " passed"
      | none =>
        match reSearch tryPytestFail output with
        | some (d1, d2) => d2 ++ pyLit " passed, " ++ d1 ++ pyLit " failed"
        | none =>
          match reSearch tryMocha output with
          | some d => d ++ pyLit " passing"
          | none =>
            if containsSub output (pyLit "PASS") then pyLit "Tests passed"
            else if containsSub output (pyLit "FAIL") then pyLit "Tests failed"
            else pyLit "See output for details"

end TestSummary

/-- Claim C7 (code bug): pytest-style failure output `"2 failed, 3 passed"`
is summarized as `"3 passed"` — the failed count is dropped, because the
pytest success pattern `(\d+)\s+passed` is searched before the pytest
failure pattern and matches inside any text the failure pattern matches,
leaving the failure branch unreachable.  Jest-style failure output, by
contrast, does report both counts (second conjunct), since the jest success
pattern's literal `passed,` cannot match the `failed,` after `Tests:`. -/
theorem C7_theorem :
    parse_test_summary (pyLit "2 failed, 3 passed") = pyLit "3 passed" ∧
      parse_test_summary (pyLit "Tests: 2 failed, 3 passed, 5 total")
        = pyLit "3 passed, 2 failed, 5 total" := by decide

section SyntaxValidatorExceptions

/-- The Python exceptions relevant to the validators: `SyntaxError` with
its `lineno`/`msg` attributes, `subprocess.TimeoutExpired`,
`FileNotFoundError`, and everything else. -/
inductive PyExn where
  | syntaxError (lineno : Option Nat) (msg : PyStr)
  | timeoutExpired
  | fileNotFoundError
  | other (msg : PyStr)
deriving DecidableEq, Repr

/-- `str(e)` for the exceptions above (message text abstract except where a
claim depends on it). -/
def pyStrOfExn : PyExn → PyStr
  | .syntaxError _ m => m
  | .timeoutExpired => pyLit "TimeoutExpired"
  | .fileNotFoundError => pyLit "FileNotFoundError"
  | .other m => m

/-- Python rendering of `e.lineno` inside an f-string (`None` when the
attribute is absent). -/
def pyReprOptNat : Option Nat → PyStr
  | none => pyLit "None"
  | some n => (toString n).data

/-- The dict returned by `SyntaxValidator.validate` and its helpers
(syntax_validator.py): keys `valid`, `language`, and the optional `error`,
`line`, `skipped`, `reason`. -/
structure SyntaxResult where
  valid : Bool
  language : PyStr
  error : Option PyStr
  line : Option Nat
  skipped : Bool
  reason : Option PyStr
deriving DecidableEq, Repr

/-- `SyntaxValidator._validate_python` (syntax_validator.py lines 43-63).
`ast.parse` is CPython's parser, external to the repository; its behaviour
on the given content is abstracted as `parseOutcome` (success, or the
exception it raises).  The `try/except SyntaxError/except Exception` chain
is transcribed as the exhaustive match; the `Except` result type shows
whether an exception escapes the function. -/
def validate_python (parseOutcome : Except PyExn Unit) : Except PyExn SyntaxResult :=
  match parseOutcome with
  | .ok _ =>
    .ok { valid := true, language := pyLit "python", error := none, line := none,
          skipped := false, reason := none }
  | .error (.syntaxError lineno msg) =>
    .ok { valid := false, language := pyLit "python",
          error := some (pyLit "Line " ++ pyReprOptNat lineno ++ pyLit ": " ++ msg),
          line := lineno, skipped := false, reason := none }
  | .error e =>
    .ok { valid := false, language := pyLit "python", error := some (pyStrOfExn e),
          line := none, skipped := false, reason := none }

/-- The fate of the `subprocess.run(['node', ...])` call in
`_validate_javascript`: completion with exit code and captured output, or
one of the exceptions the function catches. -/
inductive SubprocessOutcome where
  | completed (returncode : Int) (stdout stderr : PyStr)
  | timeoutExpired
  | fileNotFoundError
  | raised (msg : PyStr)
deriving DecidableEq, Repr

/-- Python `s.split(pat, 1)[1]`: the part after the first occurrence of
`pat` (callers check occurrence first). -/
def afterFirst (s pat : PyStr) : PyStr :=
  match s with
  | [] => []
  | c :: cs => if pat.isPrefixOf (c :: cs) then (c :: cs).drop pat.length else afterFirst cs pat

/-- `SyntaxValidator._validate_javascript` (syntax_validator.py lines
65-130): classify the node/acorn subprocess outcome; timeouts become
`failed`, a missing node and any unexpected exception degrade to
`valid`/skipped. -/
def validate_javascript (language : PyStr) (outcome : SubprocessOutcome) :
    Except PyExn SyntaxResult :=
  match outcome with
  | .completed rc stdout stderr =>
    if rc = 0 ∧ containsSub stdout (pyLit "VALID") then
      .ok { valid := true, language := language, error := none, line := none,
            skipped := false, reason := none }
    else
      let error_msg := if stderr ≠ [] then stderr else stdout
      let error_msg :=
        if containsSub error_msg (pyLit "ERROR: ") then
          pyStrip (afterFirst error_msg (pyLit "ERROR: "))
        else error_msg
      .ok { valid := false, language := language, error := some error_msg, line := none,
            skipped := false, reason := none }
  | .timeoutExpired =>
    .ok { valid := false, language := language,
          error := some (pyLit "Syntax validation timed out"), line := none,
          skipped := false, reason := none }
  | .fileNotFoundError =>
    .ok { valid := true, language := language, error := none, line := none,
          skipped := true, reason := some (pyLit "Node.js not available") }
  | .raised msg =>
    .ok { valid := true, language := language, error := none, line := none,
          skipped := true, reason := some msg }

/-- `s.lower()` (ASCII). -/
def pyLower (s : PyStr) : PyStr := s.map Char.toLower

/-- `file_path.split('.')[-1]`: the segment after the last dot (the whole
string when there is no dot). -/
def lastDotSegment (s : PyStr) : PyStr := (s.reverse.takeWhile fun c => c != '.').reverse

/-- `SyntaxValidator._detect_language` (syntax_validator.py lines 132-147). -/
def detect_language (file_path : PyStr) : PyStr :=
  if file_path = [] then pyLit "unknown"
  else
    let ext := pyLower (lastDotSegment file_path)
    if ext = pyLit "py" then pyLit "python"
    else if ext = pyLit "js" then pyLit "javascript"
    else if ext = pyLit "jsx" then pyLit "javascript"
    else if ext = pyLit "ts" then pyLit "typescript"
    else if ext = pyLit "tsx" then pyLit "typescript"
    else if ext = pyLit "mjs" then pyLit "javascript"
    else if ext = pyLit "cjs" then pyLit "javascript"
    else pyLit "unknown"

/-- `SyntaxValidator.validate` (syntax_validator.py lines 18-41): dispatch
on the detected language; unknown languages yield a skipped-valid result.
The content itself is consulted only through the abstracted parser
outcomes. -/
def validate (file_path content : PyStr) (parseOutcome : Except PyExn Unit)
    (jsOutcome : SubprocessOutcome) : Except PyExn SyntaxResult :=
  let language := detect_language file_path
  let _ := content
  if language = pyLit "python" then validate_python parseOutcome
  else if language = pyLit "javascript" ∨ language = pyLit "typescript" then
    validate_javascript language jsOutcome
  else
    .ok { valid := true, language := pyLit "unknown", error := none, line := none,
          skipped := true, reason := none }

/-- The `try/except Exception: return []` wrapper of
`DependencyChecker.check_dependencies` (dependency_checker.py lines 51-63):
`body` is the outcome of the guarded block (its computed missing list, or
the exception it raises). -/
def check_dependencies_guarded (body : Except PyExn (List PyStr)) :
    Except PyExn (List PyStr) :=
  match body with
  | .ok l => .ok l
  | .error _ => .ok []

theorem validate_python_ok (o : Except PyExn Unit) : ∃ r, validate_python o = .ok r := by
  rcases o with e | _
  · rcases e with ⟨l, m⟩ | _ | _ | m <;> exact ⟨_, rfl⟩
  · exact ⟨_, rfl⟩

theorem validate_javascript_ok (language : PyStr) (o : SubprocessOutcome) :
    ∃ r, validate_javascript language o = .ok r := by
  rcases o with ⟨rc, stdout, stderr⟩ | _ | _ | m
  · by_cases h : rc = 0 ∧ containsSub stdout (pyLit "VALID")
    · exact ⟨_, by rw [validate_javascript, if_pos h]⟩
    · exact ⟨_, by rw [validate_javascript, if_neg h]⟩
  · exact ⟨_, rfl⟩
  · exact ⟨_, rfl⟩
  · exact ⟨_, rfl⟩

end SyntaxValidatorExceptions

/-- Claim C8 (confirmed): for every file path, content, parser outcome,
subprocess outcome and dependency-check body — including every exception
those may raise — `SyntaxValidator.validate` returns a structured result
and never propagates an exception, and the dependency checker's guard
returns a list and turns any internal exception into the empty missing
list. -/
theorem C8_theorem (file_path content : PyStr) (parseOutcome : Except PyExn Unit)
    (jsOutcome : SubprocessOutcome) (body : Except PyExn (List PyStr)) :
    (∃ r, validate file_path content parseOutcome jsOutcome = .ok r) ∧
      (∃ l, check_dependencies_guarded body = .ok l) ∧
      (∀ e, body = .error e → check_dependencies_guarded body = .ok []) := by
  refine ⟨?_, ?_, ?_⟩
  · unfold validate
    by_cases h1 : detect_language file_path = pyLit "python"
    · rw [if_pos h1]
      exact validate_python_ok parseOutcome
    · rw [if_neg h1]
      by_cases h2 : detect_language file_path = pyLit "javascript" ∨
          detect_language file_path = pyLit "typescript"
      · rw [if_pos h2]
        exact validate_javascript_ok _ jsOutcome
      · rw [if_neg h2]
        exact ⟨_, rfl⟩
  · rcases body with e | l
    · exact ⟨_, rfl⟩
    · exact ⟨_, rfl⟩
  · intro e he
    subst he
    rfl

/-- Witness for C8_theorem: a dependency-check body that raises is caught
and yields the empty missing list; the concrete exception is discharged at
`PyExn.other "boom"`. -/
theorem C8_witness :
    check_dependencies_guarded (Except.error (PyExn.other (pyLit "boom")))
      = Except.ok ([] : List PyStr) :=
  (C8_theorem (pyLit "f.py") (pyLit "x = 1") (Except.ok ())
      SubprocessOutcome.timeoutExpired (Except.error (PyExn.other (pyLit "boom")))).2.2
    (PyExn.other (pyLit "boom")) rfl
